import Mathlib

/-!
Verification of the comment-normalization core of the tiktok-comments-scraper
repository, as a shallow embedding in Lean 4.

Embedded source files:
- src/outputs/formatter.py   (format_comment_record, build_share_url_fallback)
- src/extractors/user_extractor.py (normalize_avatar_urls, build_user_block)
- src/main.py                (call site of is_comment_like)

Python values are modelled by the inductive type PyVal (JSON-shaped data:
dict keys are strings, numbers are integers; floats are not modelled since
no claim exercises them, and a Python float never passes the
str(x).isdigit() guard anyway).  A function that can raise an exception is
modelled as returning Option (Option.none = an exception propagates).
String digit tests are modelled over ASCII digits, which covers every
string the claims exercise.
-/

inductive PyVal where
  | none : PyVal
  | bool : Bool → PyVal
  | int : Int → PyVal
  | str : String → PyVal
  | list : List PyVal → PyVal
  | dict : List (String × PyVal) → PyVal
deriving Repr

/-- Python truthiness: None, False, 0, empty string/list/dict are falsy. -/
def pyTruthy : PyVal → Bool
  | .none => false
  | .bool b => b
  | .int n => !(n == 0)
  | .str s => !s.data.isEmpty
  | .list l => !l.isEmpty
  | .dict d => !d.isEmpty

/-- Python `a or b`: a when a is truthy, else b. -/
def pyOr (a b : PyVal) : PyVal :=
  if pyTruthy a then a else b

/-- Association-list lookup modelling Python dict access (keys are unique in
a Python dict; first match suffices). -/
def pyLookup : List (String × PyVal) → String → Option PyVal
  | [], _ => Option.none
  | (k, v) :: rest, key => if k = key then some v else pyLookup rest key

/-- Python d.get(key): the value when present, else None. -/
def pyGet (d : List (String × PyVal)) (key : String) : PyVal :=
  (pyLookup d key).getD PyVal.none

/-- Python d.get(key, default). -/
def pyGetD (d : List (String × PyVal)) (key : String) (dflt : PyVal) : PyVal :=
  (pyLookup d key).getD dflt

/-- Decimal digit characters of a natural number (fuel-based so the kernel
can evaluate it; fuel m+1 always suffices since the argument shrinks by /10). -/
def natStrAux : Nat → Nat → List Char → List Char
  | 0, _, acc => acc
  | fuel + 1, m, acc =>
    let d : Char := Char.ofNat (48 + m % 10)
    if m / 10 = 0 then d :: acc else natStrAux fuel (m / 10) (d :: acc)

/-- Decimal representation of a natural number, as Python str() renders it. -/
def natStr (m : Nat) : String :=
  String.mk (natStrAux (m + 1) m [])

/-- Python str(n) for an int: optional minus sign followed by decimal digits. -/
def pyIntStr (n : Int) : String :=
  if n < 0 then "-" ++ natStr (-n).toNat else natStr n.toNat

/-- Python repr() of a string: quoted, with backslash, quote and control escapes.
Quote choice follows CPython: single quotes unless the string contains a
single quote and no double quote.  (Escaping of other non-printable
characters is elided; no claim exercises it.) -/
def pyStrReprWith (q : Char) (s : String) : String :=
  String.mk (q :: (s.data.foldr (fun c acc =>
    if c = '\\' then '\\' :: '\\' :: acc
    else if c = q then '\\' :: q :: acc
    else if c = '\n' then '\\' :: 'n' :: acc
    else if c = '\r' then '\\' :: 'r' :: acc
    else if c = '\t' then '\\' :: 't' :: acc
    else c :: acc) [q]))

/-- Python repr() of a string. -/
def pyStrRepr (s : String) : String :=
  if s.data.contains '\x27' && !(s.data.contains '"') then pyStrReprWith '"' s
  else pyStrReprWith '\x27' s

mutual
/-- Python repr(v). -/
def pyRepr : PyVal → String
  | .none => "None"
  | .bool true => "True"
  | .bool false => "False"
  | .int n => pyIntStr n
  | .str s => pyStrRepr s
  | .list l => "[" ++ pyReprSeq l ++ "]"
  | .dict d => "\x7b" ++ pyReprDictSeq d ++ "\x7d"

/-- Comma-separated reprs of list elements. -/
def pyReprSeq : List PyVal → String
  | [] => ""
  | [x] => pyRepr x
  | x :: xs => pyRepr x ++ ", " ++ pyReprSeq xs

/-- Comma-separated reprs of dict entries. -/
def pyReprDictSeq : List (String × PyVal) → String
  | [] => ""
  | [(k, v)] => pyStrRepr k ++ ": " ++ pyRepr v
  | (k, v) :: xs => pyStrRepr k ++ ": " ++ pyRepr v ++ ", " ++ pyReprDictSeq xs
end

/-- Python str(v): the string itself for strings, repr-like otherwise. -/
def pyStr : PyVal → String
  | .none => "None"
  | .bool true => "True"
  | .bool false => "False"
  | .int n => pyIntStr n
  | .str s => s
  | .list l => "[" ++ pyReprSeq l ++ "]"
  | .dict d => "\x7b" ++ pyReprDictSeq d ++ "\x7d"

/-- Python s.isdigit() restricted to ASCII digits: non-empty and all digits. -/
def pyIsDigitStr (s : String) : Bool :=
  !s.data.isEmpty && s.data.all Char.isDigit

/-- Value of a string of decimal digits, as Python int() parses it. -/
def pyIntOfDigits (s : String) : Int :=
  (s.data.foldl (fun a c => a * 10 + (c.toNat - 48)) 0 : Nat)

/-- Python isinstance(v, (int, float, str)); bool is a subclass of int. -/
def pyIsNumLike : PyVal → Bool
  | .int _ => true
  | .bool _ => true
  | .str _ => true
  | _ => false

/-- Python int(v) for the shapes that pass the isdigit guard in the source. -/
def pyToInt : PyVal → Int
  | .int n => n
  | .bool b => if b then 1 else 0
  | .str s => pyIntOfDigits s
  | _ => 0

/-- Embeds the numeric-coercion expression used in format_comment_record:
int(v) if isinstance(v, (int, float, str)) and str(v).isdigit() else 0. -/
def pyNumCoerce (v : PyVal) : Int :=
  if pyIsNumLike v && pyIsDigitStr (pyStr v) then pyToInt v else 0

/-- Python whitespace characters stripped by str.strip(). -/
def pyIsSpace (c : Char) : Bool :=
  c = ' ' || c = '\t' || c = '\n' || c = '\r' || c = '\x0b' || c = '\x0c'

/-- Python s.strip(): drop leading and trailing whitespace. -/
def pyStrip (s : String) : String :=
  String.mk (((s.data.dropWhile pyIsSpace).reverse.dropWhile pyIsSpace).reverse)

/-- Iterating a Python value: lists yield elements, strings yield their
characters, dicts yield their keys; other values raise TypeError (none). -/
def pyIter : PyVal → Option (List PyVal)
  | .list l => some l
  | .str s => some (s.data.map (fun c => PyVal.str (String.mk [c])))
  | .dict d => some (d.map (fun kv => PyVal.str kv.1))
  | _ => Option.none

/-- Python `a or ""` on strings (used for source_url fallback). -/
def strOr (a b : String) : String :=
  if a.data.isEmpty then b else a

/-- Embeds the final list comprehension of normalize_avatar_urls:
[u for u in urls if isinstance(u, str) and u.strip()] — elements are kept
verbatim (not stripped). -/
def filterUrls (l : List PyVal) : List String :=
  l.filterMap (fun u =>
    match u with
    | .str s => if !(pyStrip s).data.isEmpty then some s else Option.none
    | _ => Option.none)

/-- Embeds normalize_avatar_urls from src/extractors/user_extractor.py.
Option.none models an uncaught exception (iterating a non-iterable truthy
candidate, outside the try/except blocks).  The two nested lookups sit in
try/except AttributeError guards: a non-dict intermediate leaves urls at
its previous value. -/
def normalize_avatar_urls (user : PyVal) : Option (List String) :=
  match user with
  | .dict d =>
    let urls1 : PyVal :=
      match pyGetD d "avatar_thumb" (.dict []) with
      | .dict t => pyOr (pyGet t "url_list") (.list [])
      | _ => .list []
    let urls2 : PyVal :=
      if pyTruthy urls1 then urls1 else
        match pyGetD d "avatarThumb" (.dict []) with
        | .dict t => pyOr (pyGet t "urlList") (.list [])
        | _ => urls1
    let urls3 : PyVal :=
      if pyTruthy urls2 then urls2 else
        match pyOr (pyGet d "avatar") (pyGet d "avatarUrl") with
        | .str s => if !(pyStrip s).data.isEmpty then .list [.str (pyStrip s)] else urls2
        | _ => urls2
    match pyIter urls3 with
    | some elems => some (filterUrls elems)
    | Option.none => Option.none
  | _ => some []

/-- Canonical user block produced by build_user_block.  nickname and
unique_id are passed through uncoerced (the source applies no str()). -/
structure UserBlock where
  nickname : PyVal
  unique_id : PyVal
  url_list : List String
deriving Repr

/-- Embeds build_user_block from src/extractors/user_extractor.py.  The
source has no isinstance guard: user.get on a non-mapping raises
AttributeError, modelled as Option.none. -/
def build_user_block (user : PyVal) : Option UserBlock :=
  match user with
  | .dict d =>
    let nickname := pyOr (pyGet d "nickname") (pyOr (pyGet d "nicknameName")
      (pyOr (pyGet d "display_name") (pyOr (pyGet d "displayName") (.str ""))))
    let unique_id := pyOr (pyGet d "unique_id") (pyOr (pyGet d "uniqueId")
      (pyOr (pyGet d "username") (pyOr (pyGet d "uid") (.str ""))))
    (normalize_avatar_urls (.dict d)).map (fun urls => ⟨nickname, unique_id, urls⟩)
  | _ => Option.none

/-- Canonical comment record produced by format_comment_record.  text and
share_info_url are PyVal because the source passes them through without
coercion; share_info_url is the single url entry of the share_info dict. -/
structure CanonicalComment where
  author_pin : Bool
  aweme_id : String
  cid : String
  comment_language : String
  create_time : Int
  digg_count : Int
  reply_comment_total : Int
  text : PyVal
  user : UserBlock
  share_info_url : PyVal
deriving Repr

/-- Embeds build_share_url_fallback from src/outputs/formatter.py.  The
first two arguments are the raw resolved values (the source passes them
before stringification); the f-string applies str(). -/
def build_share_url_fallback (aweme_id cid : PyVal) (source_url : String) : String :=
  if pyTruthy aweme_id && pyTruthy cid then
    "https://m.tiktok.com/v/" ++ pyStr aweme_id ++ ".html?share_comment_id=" ++ pyStr cid
  else strOr source_url ""

/-- Embeds the share_url assignment of format_comment_record: share_info =
raw.get("share_info") or \x7b\x7d; if it is a dict, share_url =
share_info.get("url") or "". -/
def rawShareUrl (d : List (String × PyVal)) : PyVal :=
  match pyOr (pyGet d "share_info") (.dict []) with
  | .dict t => pyOr (pyGet t "url") (.str "")
  | _ => .str ""

/-- Embeds format_comment_record from src/outputs/formatter.py.
Option.none models a propagated exception: raw.get on a non-mapping, or
build_user_block raising on a truthy non-mapping user/author value, or
normalize_avatar_urls raising on a non-iterable truthy avatar candidate. -/
def format_comment_record (raw : PyVal) (source_url : String) : Option CanonicalComment :=
  match raw with
  | .dict d =>
    let author_pin := pyTruthy (pyOr (pyGet d "author_pin")
      (pyOr (pyGet d "isPinned") (pyGet d "pinned")))
    let aweme_id := pyOr (pyGet d "aweme_id") (pyOr (pyGet d "awemeId")
      (pyOr (pyGet d "video_id") (pyOr (pyGet d "videoId") (.str ""))))
    let cid := pyOr (pyGet d "cid") (pyOr (pyGet d "comment_id")
      (pyOr (pyGet d "id") (.str "")))
    let lang := pyOr (pyGet d "comment_language") (pyOr (pyGet d "lang")
      (pyOr (pyGet d "language") (.str "")))
    let create_time := pyOr (pyGet d "create_time") (pyOr (pyGet d "createTime")
      (pyOr (pyGet d "timestamp") (.int 0)))
    let digg := pyOr (pyGet d "digg_count") (pyOr (pyGet d "like_count")
      (pyOr (pyGet d "likes") (.int 0)))
    let replies := pyOr (pyGet d "reply_comment_total") (pyOr (pyGet d "reply_count")
      (pyOr (pyGet d "replies") (.int 0)))
    let text := pyOr (pyGet d "text") (pyOr (pyGet d "comment")
      (pyOr (pyGet d "content") (.str "")))
    match build_user_block (pyOr (pyGet d "user") (pyOr (pyGet d "author") (.dict []))) with
    | Option.none => Option.none
    | some user_block =>
      let share_url := rawShareUrl d
      some {
        author_pin := author_pin
        aweme_id := if pyTruthy aweme_id then pyStr aweme_id else ""
        cid := if pyTruthy cid then pyStr cid else ""
        comment_language := if pyTruthy lang then pyStr lang else ""
        create_time := pyNumCoerce create_time
        digg_count := pyNumCoerce digg
        reply_comment_total := pyNumCoerce replies
        text := text
        user := user_block
        share_info_url :=
          if pyTruthy share_url then share_url
          else .str (build_share_url_fallback aweme_id cid source_url)
      }
  | _ => Option.none

/-- Entry list of the raw mapping a canonical record renders back to, with
the canonical key names, for re-feeding into format_comment_record. -/
def recordFields (r : CanonicalComment) : List (String × PyVal) :=
  [
    ("author_pin", .bool r.author_pin),
    ("aweme_id", .str r.aweme_id),
    ("cid", .str r.cid),
    ("comment_language", .str r.comment_language),
    ("create_time", .int r.create_time),
    ("digg_count", .int r.digg_count),
    ("reply_comment_total", .int r.reply_comment_total),
    ("text", r.text),
    ("user", .dict [
      ("nickname", r.user.nickname),
      ("unique_id", r.user.unique_id),
      ("avatar_thumb", .dict [("url_list", .list (r.user.url_list.map PyVal.str))])]),
    ("share_info", .dict [("url", r.share_info_url)])
  ]

/-- Renders a canonical record back into a raw mapping. -/
def recordToDict (r : CanonicalComment) : PyVal :=
  .dict (recordFields r)

/-- Modelled from the spec: is_comment_like is imported from
extractors.utils in src/main.py, but the tail of src/extractors/utils.py
holding its definition is missing from the available sources.  Spec 4.4:
true only if the input is a mapping AND at least one of the keys text,
comment, content, cid, comment_id, id is present with a non-empty (truthy)
value. -/
def is_comment_like (raw : PyVal) : Bool :=
  match raw with
  | .dict d =>
    ["text", "comment", "content", "cid", "comment_id", "id"].any
      (fun k => pyTruthy (pyGet d k))
  | _ => false

/-- Spec-side resolver: the first candidate key whose value is truthy, else
the default.  Used to state claims about field resolution independently of
the nested pyOr chains of the embedded source. -/
def firstTruthyOf (d : List (String × PyVal)) : List String → PyVal → PyVal
  | [], dflt => dflt
  | k :: ks, dflt => if pyTruthy (pyGet d k) then pyGet d k else firstTruthyOf d ks dflt

/-- Spec-side numeric coercion, following the words of claim C5: an
int/float keeps its value only when non-negative (a negative int is not a
digit-only string per the stated policy), a string counts only when composed
entirely of digits, everything else collapses to 0. -/
def specNumCoerce : PyVal → Int
  | .int n => if 0 ≤ n then n else 0
  | .str s => if pyIsDigitStr s then pyIntOfDigits s else 0
  | _ => 0

/-- First-truthy-wins candidate chain, as the nested `or` expressions of the
source unfold: resolveChain d [k1, k2] dflt is pyOr (d.get k1) (pyOr
(d.get k2) dflt), definitionally. -/
def resolveChain (d : List (String × PyVal)) : List String → PyVal → PyVal
  | [], dflt => dflt
  | k :: ks, dflt => pyOr (pyGet d k) (resolveChain d ks dflt)

/-- Resolution invariant: a value is either truthy or exactly the default
that ends its or-chain. -/
def TruthyOrD (v dflt : PyVal) : Prop :=
  pyTruthy v = true ∨ v = dflt

/-- Invariants every record produced by format_comment_record satisfies,
relative to the source URL it was produced with. -/
def Canon (u : String) (r : CanonicalComment) : Prop :=
  0 ≤ r.create_time ∧ 0 ≤ r.digg_count ∧ 0 ≤ r.reply_comment_total ∧
  TruthyOrD r.text (.str "") ∧
  TruthyOrD r.user.nickname (.str "") ∧ TruthyOrD r.user.unique_id (.str "") ∧
  (∀ s ∈ r.user.url_list, (pyStrip s).data ≠ []) ∧
  (pyTruthy r.share_info_url = true ∨
    (r.share_info_url = .str "" ∧ (r.aweme_id = "" ∨ r.cid = "") ∧ u = ""))


lemma pyOr_pos {a : PyVal} (b : PyVal) (h : pyTruthy a = true) : pyOr a b = a := by
  simp [pyOr, h]

lemma pyOr_neg {a : PyVal} (b : PyVal) (h : pyTruthy a = false) : pyOr a b = b := by
  simp [pyOr, h]

lemma truthyOrD_self (dflt : PyVal) : TruthyOrD dflt dflt := Or.inr rfl

lemma truthyOrD_pyOr {b dflt : PyVal} (a : PyVal) (h : TruthyOrD b dflt) :
    TruthyOrD (pyOr a b) dflt := by
  by_cases ha : pyTruthy a = true
  · exact Or.inl (by rw [pyOr_pos b ha]; exact ha)
  · rw [pyOr_neg b (by simpa using ha)]; exact h

lemma str_truthy_iff (s : String) : pyTruthy (.str s) = true ↔ s ≠ "" := by
  constructor
  · intro h hs
    subst hs
    simp [pyTruthy] at h
  · intro h
    simp only [pyTruthy]
    cases hdata : s.data with
    | nil => exact absurd (String.ext (by simp [hdata])) h
    | cons c cs => simp [hdata]

lemma str_falsy_iff (s : String) : pyTruthy (.str s) = false ↔ s = "" := by
  constructor
  · intro h
    by_contra hne
    rw [(str_truthy_iff s).mpr hne] at h
    simp at h
  · intro h
    subst h
    simp [pyTruthy]

lemma digitChar_isDigit {d : Nat} (h : d < 10) : (Char.ofNat (48 + d)).isDigit = true := by
  interval_cases d <;> decide

lemma natStrAux_all_digits (fuel : Nat) :
    ∀ m acc, acc.all Char.isDigit = true → (natStrAux fuel m acc).all Char.isDigit = true := by
  induction fuel with
  | zero => intro m acc h; simpa [natStrAux] using h
  | succ fuel ih =>
    intro m acc h
    simp only [natStrAux]
    have hd : (Char.ofNat (48 + m % 10)).isDigit = true :=
      digitChar_isDigit (Nat.mod_lt _ (by norm_num))
    by_cases hq : m / 10 = 0
    · simp [hq, List.all_cons, hd, h]
    · simp only [hq, if_false]
      exact ih _ _ (by simp [List.all_cons, hd, h])

lemma natStrAux_length (fuel : Nat) :
    ∀ m acc, acc.length ≤ (natStrAux fuel m acc).length := by
  induction fuel with
  | zero => intro m acc; simp [natStrAux]
  | succ fuel ih =>
    intro m acc
    simp only [natStrAux]
    by_cases hq : m / 10 = 0
    · simp [hq]
    · simp only [hq, if_false]
      calc acc.length ≤ acc.length + 1 := Nat.le_succ _
        _ = (Char.ofNat (48 + m % 10) :: acc).length := by simp
        _ ≤ _ := ih _ _

lemma natStr_all_digits (m : Nat) : (natStr m).data.all Char.isDigit = true :=
  natStrAux_all_digits (m + 1) m [] rfl

lemma natStrAux_length_succ (fuel m : Nat) (acc : List Char) :
    acc.length + 1 ≤ (natStrAux (fuel + 1) m acc).length := by
  simp only [natStrAux]
  by_cases hq : m / 10 = 0
  · simp [hq]
  · simp only [hq, if_false]
    have := natStrAux_length fuel (m / 10) (Char.ofNat (48 + m % 10) :: acc)
    simpa using this

lemma natStr_ne_nil (m : Nat) : (natStr m).data ≠ [] := by
  intro h
  have h2 : natStrAux (m + 1) m [] = [] := h
  have h3 := natStrAux_length_succ m m []
  rw [h2] at h3
  simp at h3

lemma pyIsDigitStr_natStr (m : Nat) : pyIsDigitStr (natStr m) = true := by
  simp [pyIsDigitStr, natStr_all_digits, List.isEmpty_iff, natStr_ne_nil]

lemma pyIntStr_nonneg {n : Int} (h : 0 ≤ n) : pyIntStr n = natStr n.toNat := by
  simp [pyIntStr, Int.not_lt.mpr h]

lemma pyIsDigitStr_pyIntStr {n : Int} (h : 0 ≤ n) : pyIsDigitStr (pyIntStr n) = true := by
  rw [pyIntStr_nonneg h]; exact pyIsDigitStr_natStr _

lemma pyIsDigitStr_pyIntStr_neg {n : Int} (h : n < 0) : pyIsDigitStr (pyIntStr n) = false := by
  have : pyIntStr n = "-" ++ natStr (-n).toNat := by simp [pyIntStr, h]
  rw [this, pyIsDigitStr]
  have hdata : ("-" ++ natStr (-n).toNat).data = '-' :: (natStr (-n).toNat).data := by
    simp [String.data_append]
  simp [hdata]

lemma pyNumCoerce_int {n : Int} (h : 0 ≤ n) : pyNumCoerce (.int n) = n := by
  simp [pyNumCoerce, pyIsNumLike, pyStr, pyIsDigitStr_pyIntStr h, pyToInt]

lemma pyNumCoerce_nonneg (v : PyVal) : 0 ≤ pyNumCoerce v := by
  rw [pyNumCoerce]
  split
  · rename_i hguard
    match v with
    | .int n =>
      rcases Int.lt_or_le n 0 with hn | hn
      · rw [pyStr] at hguard
        simp [pyIsDigitStr_pyIntStr_neg hn] at hguard
      · simpa [pyToInt] using hn
    | .bool b => cases b <;> simp [pyStr, pyIsDigitStr] at hguard
    | .str s => simp [pyToInt, pyIntOfDigits]
    | .none => simp [pyIsNumLike] at hguard
    | .list l => simp [pyIsNumLike] at hguard
    | .dict d => simp [pyIsNumLike] at hguard
  · simp

lemma pyStr_ne_empty {v : PyVal} (h : pyTruthy v = true) : pyStr v ≠ "" := by
  intro hs
  have hd : (pyStr v).data = [] := by rw [hs]
  match v with
  | .none => simp [pyTruthy] at h
  | .bool true => simp [pyStr] at hd
  | .bool false => simp [pyTruthy] at h
  | .int n =>
    rw [pyStr, pyIntStr] at hd
    split at hd
    · simp [String.data_append] at hd
    · exact natStr_ne_nil _ hd
  | .str s =>
    rw [str_truthy_iff] at h
    exact h (String.ext (by simpa [pyStr] using hd))
  | .list l => simp [pyStr, String.data_append] at hd
  | .dict d => simp [pyStr, String.data_append] at hd

lemma mem_filterUrls {l : List PyVal} {s : String} (h : s ∈ filterUrls l) :
    (pyStrip s).data ≠ [] := by
  rw [filterUrls, List.mem_filterMap] at h
  obtain ⟨v, _, hv⟩ := h
  match v with
  | .str t =>
    simp only at hv
    split at hv
    · rename_i hne
      injection hv with hv
      subst hv
      simpa using hne
    · exact absurd hv (by simp)
  | .none | .bool _ | .int _ | .list _ | .dict _ => exact absurd hv (by simp)

lemma filterUrls_map_str {l : List String} (h : ∀ s ∈ l, (pyStrip s).data ≠ []) :
    filterUrls (l.map PyVal.str) = l := by
  induction l with
  | nil => rfl
  | cons s rest ih =>
    have hs := h s (List.mem_cons_self s rest)
    simp only [List.map_cons, filterUrls, List.filterMap_cons]
    rw [if_pos (by simpa using hs)]
    show s :: filterUrls (rest.map PyVal.str) = s :: rest
    exact congrArg (s :: ·) (ih (fun t ht => h t (List.mem_cons_of_mem s ht)))

lemma normalize_avatar_urls_strip {u : PyVal} {l : List String}
    (h : normalize_avatar_urls u = some l) : ∀ s ∈ l, (pyStrip s).data ≠ [] := by
  match u with
  | .dict d =>
    rw [normalize_avatar_urls] at h
    split at h
    · injection h with h
      subst h
      intro s hs
      exact mem_filterUrls hs
    · exact absurd h (by simp)
  | .none | .bool _ | .int _ | .str _ | .list _ =>
    injection h with h
    subst h
    intro s hs
    simp at hs

lemma build_user_block_inv {v : PyVal} {ub : UserBlock} (h : build_user_block v = some ub) :
    TruthyOrD ub.nickname (.str "") ∧ TruthyOrD ub.unique_id (.str "") ∧
    ∀ s ∈ ub.url_list, (pyStrip s).data ≠ [] := by
  match v with
  | .dict d =>
    rw [build_user_block] at h
    cases hn : normalize_avatar_urls (.dict d) with
    | none => rw [hn] at h; exact absurd h (by simp)
    | some urls =>
      rw [hn] at h
      injection h with h
      subst h
      refine ⟨?_, ?_, ?_⟩
      · exact truthyOrD_pyOr _ (truthyOrD_pyOr _ (truthyOrD_pyOr _
          (truthyOrD_pyOr _ (truthyOrD_self _))))
      · exact truthyOrD_pyOr _ (truthyOrD_pyOr _ (truthyOrD_pyOr _
          (truthyOrD_pyOr _ (truthyOrD_self _))))
      · exact normalize_avatar_urls_strip hn
  | .none | .bool _ | .int _ | .str _ | .list _ =>
    exact Option.noConfusion h

lemma resolveChain_tod (d : List (String × PyVal)) (ks : List String) (dflt : PyVal) :
    TruthyOrD (resolveChain d ks dflt) dflt := by
  induction ks with
  | nil => exact truthyOrD_self _
  | cons k ks ih => exact truthyOrD_pyOr _ ih

lemma str_truthy_of_data {s : String} (h : s.data ≠ []) : pyTruthy (.str s) = true := by
  rw [str_truthy_iff]
  intro he
  subst he
  exact h rfl

lemma append_data_ne {a : String} (h : a.data ≠ []) (b : String) : (a ++ b).data ≠ [] := by
  rw [String.data_append]
  exact fun hd => h (List.append_eq_nil.mp hd).1

/-- Unfolds one production of format_comment_record: the record produced for
a mapping input, conditional on the user block not raising. -/
lemma format_fields {d : List (String × PyVal)} {u : String} {r : CanonicalComment}
    (h : format_comment_record (.dict d) u = some r) :
    ∃ ub, build_user_block (resolveChain d ["user", "author"] (.dict [])) = some ub ∧
      r = { author_pin := pyTruthy (pyOr (pyGet d "author_pin")
              (pyOr (pyGet d "isPinned") (pyGet d "pinned")))
            aweme_id :=
              if pyTruthy (resolveChain d ["aweme_id", "awemeId", "video_id", "videoId"] (.str ""))
              then pyStr (resolveChain d ["aweme_id", "awemeId", "video_id", "videoId"] (.str ""))
              else ""
            cid :=
              if pyTruthy (resolveChain d ["cid", "comment_id", "id"] (.str ""))
              then pyStr (resolveChain d ["cid", "comment_id", "id"] (.str "")) else ""
            comment_language :=
              if pyTruthy (resolveChain d ["comment_language", "lang", "language"] (.str ""))
              then pyStr (resolveChain d ["comment_language", "lang", "language"] (.str ""))
              else ""
            create_time := pyNumCoerce (resolveChain d ["create_time", "createTime", "timestamp"] (.int 0))
            digg_count := pyNumCoerce (resolveChain d ["digg_count", "like_count", "likes"] (.int 0))
            reply_comment_total := pyNumCoerce (resolveChain d ["reply_comment_total", "reply_count", "replies"] (.int 0))
            text := resolveChain d ["text", "comment", "content"] (.str "")
            user := ub
            share_info_url :=
              if pyTruthy (rawShareUrl d) then rawShareUrl d
              else .str (build_share_url_fallback
                (resolveChain d ["aweme_id", "awemeId", "video_id", "videoId"] (.str ""))
                (resolveChain d ["cid", "comment_id", "id"] (.str "")) u) } := by
  cases hub : build_user_block (pyOr (pyGet d "user") (pyOr (pyGet d "author") (.dict []))) with
  | none =>
    rw [format_comment_record, hub] at h
    exact absurd h (by simp)
  | some ub =>
    rw [format_comment_record, hub] at h
    refine ⟨ub, hub, ?_⟩
    injection h with h
    exact h.symm

lemma share_inv (sv A C : PyVal) (u : String) :
    pyTruthy (if pyTruthy sv then sv else .str (build_share_url_fallback A C u)) = true ∨
    ((if pyTruthy sv then sv else .str (build_share_url_fallback A C u)) = .str "" ∧
      ((if pyTruthy A then pyStr A else "") = "" ∨ (if pyTruthy C then pyStr C else "") = "") ∧
      u = "") := by
  by_cases hsv : pyTruthy sv = true
  · left
    rw [if_pos hsv]
    exact hsv
  · rw [if_neg hsv, build_share_url_fallback]
    by_cases hac : (pyTruthy A && pyTruthy C) = true
    · left
      rw [if_pos hac]
      exact str_truthy_of_data (append_data_ne (append_data_ne (append_data_ne
        (by decide) _) _) _)
    · rw [if_neg hac, strOr]
      by_cases hu : u.data.isEmpty = true
      · right
        refine ⟨by rw [if_pos hu], ?_, String.ext (by simpa using hu)⟩
        by_cases hA : pyTruthy A = true
        · right
          have hC : pyTruthy C = false := by
            cases hCc : pyTruthy C
            · rfl
            · exact absurd (by simp [hA, hCc]) hac
          rw [if_neg (by simp [hC])]
        · left
          rw [if_neg hA]
      · left
        rw [if_neg hu]
        exact str_truthy_of_data (fun hd => hu (by simp [hd]))

lemma format_canon {raw : PyVal} {u : String} {r : CanonicalComment}
    (h : format_comment_record raw u = some r) : Canon u r := by
  match raw with
  | .dict d =>
    obtain ⟨ub, hub, hr⟩ := format_fields h
    obtain ⟨hn, hu2, hurls⟩ := build_user_block_inv hub
    subst hr
    exact ⟨pyNumCoerce_nonneg _, pyNumCoerce_nonneg _, pyNumCoerce_nonneg _,
      resolveChain_tod _ _ _, hn, hu2, hurls, share_inv _ _ _ _⟩
  | .none | .bool _ | .int _ | .str _ | .list _ => exact Option.noConfusion h

/-- Evaluates format_comment_record on a mapping, given the user block: the
record it emits, with each field written as its candidate chain. -/
lemma format_eval {d : List (String × PyVal)} {u : String} {ub : UserBlock}
    (hub : build_user_block (pyOr (pyGet d "user") (pyOr (pyGet d "author") (.dict []))) = some ub) :
    format_comment_record (.dict d) u = some
      { author_pin := pyTruthy (pyOr (pyGet d "author_pin")
          (pyOr (pyGet d "isPinned") (pyGet d "pinned")))
        aweme_id :=
          if pyTruthy (resolveChain d ["aweme_id", "awemeId", "video_id", "videoId"] (.str ""))
          then pyStr (resolveChain d ["aweme_id", "awemeId", "video_id", "videoId"] (.str ""))
          else ""
        cid :=
          if pyTruthy (resolveChain d ["cid", "comment_id", "id"] (.str ""))
          then pyStr (resolveChain d ["cid", "comment_id", "id"] (.str "")) else ""
        comment_language :=
          if pyTruthy (resolveChain d ["comment_language", "lang", "language"] (.str ""))
          then pyStr (resolveChain d ["comment_language", "lang", "language"] (.str ""))
          else ""
        create_time := pyNumCoerce (resolveChain d ["create_time", "createTime", "timestamp"] (.int 0))
        digg_count := pyNumCoerce (resolveChain d ["digg_count", "like_count", "likes"] (.int 0))
        reply_comment_total := pyNumCoerce (resolveChain d ["reply_comment_total", "reply_count", "replies"] (.int 0))
        text := resolveChain d ["text", "comment", "content"] (.str "")
        user := ub
        share_info_url :=
          if pyTruthy (rawShareUrl d) then rawShareUrl d
          else .str (build_share_url_fallback
            (resolveChain d ["aweme_id", "awemeId", "video_id", "videoId"] (.str ""))
            (resolveChain d ["cid", "comment_id", "id"] (.str "")) u) } := by
  rw [format_comment_record, hub]
  rfl

lemma pyOr_str_str_empty (a : String) : pyOr (.str a) (.str "") = .str a := by
  by_cases h : a = ""
  · subst h
    rfl
  · exact pyOr_pos _ ((str_truthy_iff a).mpr h)

lemma pyOr_tod_str {tx : PyVal} (h : TruthyOrD tx (.str "")) : pyOr tx (.str "") = tx := by
  rcases h with h | h
  · exact pyOr_pos _ h
  · subst h
    rfl

lemma boolChain (b : Bool) : pyTruthy (pyOr (.bool b) (pyOr .none .none)) = b := by
  cases b <;> rfl

lemma stringify_chain (a : String) :
    (if pyTruthy (pyOr (.str a) (.str "")) then pyStr (pyOr (.str a) (.str "")) else "") = a := by
  by_cases h : a = ""
  · subst h
    rfl
  · rw [pyOr_str_str_empty, if_pos ((str_truthy_iff a).mpr h)]
    rfl

lemma numChain {n : Int} (h : 0 ≤ n) : pyNumCoerce (pyOr (.int n) (.int 0)) = n := by
  by_cases h0 : n = 0
  · subst h0
    exact pyNumCoerce_int le_rfl
  · rw [pyOr_pos _ (by simp [pyTruthy, h0])]
    exact pyNumCoerce_int h

lemma share_refeed (sv : PyVal) (aw ci u : String)
    (hsh : pyTruthy sv = true ∨ (sv = .str "" ∧ (aw = "" ∨ ci = "") ∧ u = "")) :
    (if pyTruthy (pyOr sv (.str "")) then pyOr sv (.str "")
     else .str (build_share_url_fallback
       (pyOr (.str aw) (.str "")) (pyOr (.str ci) (.str "")) u)) = sv := by
  rcases hsh with hsv | ⟨hsv, hor, hu⟩
  · rw [pyOr_pos _ hsv, if_pos hsv]
  · subst hsv
    subst hu
    rw [if_neg (by decide)]
    congr 1
    rw [build_share_url_fallback]
    rcases hor with h | h
    · subst h
      rw [if_neg (by rw [show pyTruthy (pyOr (PyVal.str "") (PyVal.str "")) = false from rfl]; simp)]
      rfl
    · subst h
      rw [if_neg (by rw [show pyTruthy (pyOr (PyVal.str "") (PyVal.str "")) = false from rfl]; simp)]
      rfl

lemma build_user_block_refeed (nv uv : PyVal) (urls : List String)
    (hn : TruthyOrD nv (.str "")) (hu : TruthyOrD uv (.str ""))
    (hs : ∀ s ∈ urls, (pyStrip s).data ≠ []) :
    build_user_block (.dict [("nickname", nv), ("unique_id", uv),
      ("avatar_thumb", .dict [("url_list", .list (urls.map PyVal.str))])]) =
      some ⟨nv, uv, urls⟩ := by
  have hnorm : normalize_avatar_urls (.dict [("nickname", nv), ("unique_id", uv),
      ("avatar_thumb", .dict [("url_list", .list (urls.map PyVal.str))])]) = some urls := by
    cases urls with
    | nil => rfl
    | cons s rest =>
      have : normalize_avatar_urls (.dict [("nickname", nv), ("unique_id", uv),
          ("avatar_thumb", .dict [("url_list", .list ((s :: rest).map PyVal.str))])]) =
          some (filterUrls ((s :: rest).map PyVal.str)) := rfl
      rw [this, filterUrls_map_str hs]
  rw [build_user_block, hnorm]
  have hnick : pyOr nv (PyVal.str "") = nv := pyOr_tod_str hn
  have huid : pyOr uv (PyVal.str "") = uv := pyOr_tod_str hu
  exact congrArg some (by
    show (⟨pyOr nv (PyVal.str ""), pyOr uv (PyVal.str ""), urls⟩ : UserBlock) = ⟨nv, uv, urls⟩
    rw [hnick, huid])

lemma user_chain_refeed (r : CanonicalComment)
    (hn : TruthyOrD r.user.nickname (.str "")) (hu : TruthyOrD r.user.unique_id (.str ""))
    (hs : ∀ s ∈ r.user.url_list, (pyStrip s).data ≠ []) :
    build_user_block (pyOr (pyGet (recordFields r) "user")
      (pyOr (pyGet (recordFields r) "author") (.dict []))) = some r.user :=
  build_user_block_refeed r.user.nickname r.user.unique_id r.user.url_list hn hu hs

lemma format_refeed {u : String} {r : CanonicalComment} (hc : Canon u r) :
    format_comment_record (recordToDict r) u = some r := by
  obtain ⟨hct, hdg, hrp, htx, hnv, huv, hurls, hsh⟩ := hc
  have hbu := user_chain_refeed r hnv huv hurls
  rw [recordToDict, format_eval hbu]
  have f1 : pyTruthy (pyOr (pyGet (recordFields r) "author_pin")
      (pyOr (pyGet (recordFields r) "isPinned") (pyGet (recordFields r) "pinned"))) =
      r.author_pin := boolChain r.author_pin
  have f2 : (if pyTruthy (resolveChain (recordFields r)
        ["aweme_id", "awemeId", "video_id", "videoId"] (.str ""))
      then pyStr (resolveChain (recordFields r)
        ["aweme_id", "awemeId", "video_id", "videoId"] (.str "")) else "") =
      r.aweme_id := stringify_chain r.aweme_id
  have f3 : (if pyTruthy (resolveChain (recordFields r) ["cid", "comment_id", "id"] (.str ""))
      then pyStr (resolveChain (recordFields r) ["cid", "comment_id", "id"] (.str "")) else "") =
      r.cid := stringify_chain r.cid
  have f4 : (if pyTruthy (resolveChain (recordFields r)
        ["comment_language", "lang", "language"] (.str ""))
      then pyStr (resolveChain (recordFields r)
        ["comment_language", "lang", "language"] (.str "")) else "") =
      r.comment_language := stringify_chain r.comment_language
  have f5 : pyNumCoerce (resolveChain (recordFields r)
      ["create_time", "createTime", "timestamp"] (.int 0)) = r.create_time := numChain hct
  have f6 : pyNumCoerce (resolveChain (recordFields r)
      ["digg_count", "like_count", "likes"] (.int 0)) = r.digg_count := numChain hdg
  have f7 : pyNumCoerce (resolveChain (recordFields r)
      ["reply_comment_total", "reply_count", "replies"] (.int 0)) =
      r.reply_comment_total := numChain hrp
  have f8 : resolveChain (recordFields r) ["text", "comment", "content"] (.str "") =
      r.text := pyOr_tod_str htx
  have f10 : (if pyTruthy (rawShareUrl (recordFields r)) then rawShareUrl (recordFields r)
      else .str (build_share_url_fallback
        (resolveChain (recordFields r) ["aweme_id", "awemeId", "video_id", "videoId"] (.str ""))
        (resolveChain (recordFields r) ["cid", "comment_id", "id"] (.str "")) u)) =
      r.share_info_url := share_refeed r.share_info_url r.aweme_id r.cid u hsh
  rw [f1, f2, f3, f4, f5, f6, f7, f8, f10]

lemma resolveChain_eq_firstTruthyOf (d : List (String × PyVal)) (ks : List String) (dflt : PyVal) :
    resolveChain d ks dflt = firstTruthyOf d ks dflt := by
  induction ks with
  | nil => rfl
  | cons k ks ih =>
    rw [resolveChain, firstTruthyOf, pyOr, ih]

lemma pyNumCoerce_eq_spec (v : PyVal) : pyNumCoerce v = specNumCoerce v := by
  match v with
  | .none | .list _ | .dict _ => rfl
  | .bool b => cases b <;> rfl
  | .str s => rfl
  | .int n =>
    rcases Int.lt_or_le n 0 with hn | hn
    · rw [pyNumCoerce, specNumCoerce]
      rw [show pyStr (.int n) = pyIntStr n from rfl, pyIsDigitStr_pyIntStr_neg hn]
      simp [Int.not_le.mpr hn]
    · rw [pyNumCoerce, specNumCoerce]
      rw [show pyStr (.int n) = pyIntStr n from rfl, pyIsDigitStr_pyIntStr hn]
      simp [pyIsNumLike, pyToInt, hn]

lemma strOr_empty (u : String) : strOr u "" = u := by
  rw [strOr]
  by_cases h : u.data.isEmpty = true
  · rw [if_pos h]
    exact (String.ext (by simpa using h)).symm
  · rw [if_neg h]

lemma stringified_empty_falsy (X : PyVal) (hX : (if pyTruthy X then pyStr X else "") = "") :
    pyTruthy X = false := by
  cases hT : pyTruthy X
  · rfl
  · rw [if_pos hT] at hX
    exact absurd hX (pyStr_ne_empty hT)

/-!
Claim theorems.
-/

/-- C1: the claim states format_comment_record returns a fully-populated
record and never raises, for every raw value including non-mappings and a
truthy non-mapping value under the user/author key.  The code violates
this: build_user_block calls user.get on the resolved user value with no
isinstance guard, so a truthy non-mapping user raises AttributeError; a
non-mapping raw raises on raw.get; and a truthy non-iterable
avatar_thumb.url_list raises TypeError in the final comprehension of
normalize_avatar_urls, outside its try/except blocks.  This theorem
evaluates the embedding at those failing inputs (Option.none = a raised
exception). -/
theorem C1_totality_failing_inputs :
    format_comment_record (.dict [("user", .str "bob")]) "https://tiktok.com/x" = Option.none ∧
    format_comment_record (.str "not a mapping") "https://tiktok.com/x" = Option.none ∧
    normalize_avatar_urls (.dict [("avatar_thumb", .dict [("url_list", .int 5)])]) = Option.none :=
  ⟨rfl, rfl, rfl⟩

/-- C2 counterexample: with create_time literally 0 and createTime 5, the
claim says the canonical create_time is 0 (first present key wins); the
code resolves 5, because its or-chains skip falsy values such as a literal
0. -/
theorem C2_counterexample :
    (format_comment_record (.dict [("create_time", .int 0), ("createTime", .int 5)]) "").map
      CanonicalComment.create_time = some 5 ∧
    (format_comment_record (.dict [("create_time", .int 0), ("createTime", .int 5)]) "").map
      CanonicalComment.create_time ≠ some 0 :=
  ⟨rfl, by decide⟩

/-- C2 amended: the numeric and boolean fields use the same
truthiness-skipping or-chains as every other field, so a first candidate
key holding a literal 0 (or false) is skipped and a later truthy candidate
wins: if create_time is present with value 0 and createTime is present
with a truthy value v, the canonical create_time is the coercion of v. -/
theorem C2_first_truthy_wins (d : List (String × PyVal)) (u : String) (r : CanonicalComment)
    (v : PyVal)
    (h0 : pyLookup d "create_time" = some (.int 0))
    (h1 : pyLookup d "createTime" = some v) (hv : pyTruthy v = true)
    (h : format_comment_record (.dict d) u = some r) :
    r.create_time = pyNumCoerce v := by
  obtain ⟨ub, hub, hr⟩ := format_fields h
  subst hr
  show pyNumCoerce (resolveChain d ["create_time", "createTime", "timestamp"] (.int 0)) =
    pyNumCoerce v
  congr 1
  rw [show resolveChain d ["create_time", "createTime", "timestamp"] (PyVal.int 0) =
    pyOr (pyGet d "create_time") (pyOr (pyGet d "createTime")
      (pyOr (pyGet d "timestamp") (PyVal.int 0))) from rfl]
  simp only [pyGet, h0, h1, Option.getD_some]
  rw [pyOr_neg _ (by decide : pyTruthy (PyVal.int 0) = false), pyOr_pos _ hv]

/-- C2 witness: the amended claim applied at the counterexample input. -/
theorem C2_first_truthy_wins_witness :
    (⟨false, "", "", "", 5, 0, 0, .str "", ⟨.str "", .str "", []⟩, .str ""⟩ :
      CanonicalComment).create_time = pyNumCoerce (.int 5) :=
  C2_first_truthy_wins [("create_time", .int 0), ("createTime", .int 5)] "" _ (.int 5)
    rfl rfl rfl rfl

/-- C3 counterexample: with avatar_thumb.url_list equal to [""] (a non-empty
list with no non-empty string) and avatarThumb.urlList holding a good URL,
the claim says the result falls through to ["http://y/b.jpg"]; the code
returns [], because fall-through is decided on the raw truthiness of the
candidate before filtering, and the single filter pass runs only at the
end. -/
theorem C3_counterexample :
    normalize_avatar_urls (.dict [("avatar_thumb", .dict [("url_list", .list [.str ""])]),
      ("avatarThumb", .dict [("urlList", .list [.str "http://y/b.jpg"])])]) = some [] ∧
    some ([] : List String) ≠ some ["http://y/b.jpg"] :=
  ⟨rfl, by decide⟩

/-- C3 amended: candidates are tried in order, but a candidate is skipped
only when its raw value is falsy (absent, None, empty list or string)
before any filtering; whenever the first candidate avatar_thumb.url_list
is present and truthy, it is selected outright and the single
keep-non-blank-strings filter is applied to it at the end, with no
fall-through to later candidates even if the filtered result is empty. -/
theorem C3_first_truthy_candidate_selected (d t : List (String × PyVal)) (v : PyVal)
    (elems : List PyVal)
    (h1 : pyLookup d "avatar_thumb" = some (.dict t))
    (h2 : pyLookup t "url_list" = some v)
    (hv : pyTruthy v = true) (hit : pyIter v = some elems) :
    normalize_avatar_urls (.dict d) = some (filterUrls elems) := by
  rw [normalize_avatar_urls]
  simp only [pyGetD, pyGet, h1, h2, Option.getD_some]
  rw [pyOr_pos _ hv]
  rw [if_pos hv, if_pos hv, hit]

/-- C3 witness: the amended claim applied at the counterexample input,
showing the selected [""] candidate filters to [] with no fall-through. -/
theorem C3_first_truthy_candidate_selected_witness :
    normalize_avatar_urls (.dict [("avatar_thumb", .dict [("url_list", .list [.str ""])]),
      ("avatarThumb", .dict [("urlList", .list [.str "http://y/b.jpg"])])]) =
      some (filterUrls [.str ""]) :=
  C3_first_truthy_candidate_selected _ _ _ _ rfl rfl rfl rfl

/-- C4 counterexample: an element of avatar_thumb.url_list that is a
non-blank string with surrounding whitespace passes the filter and is kept
verbatim, so the produced avatar list holds " x ", which carries leading
and trailing whitespace (its trimmed form is "x"); the claim says every
element is trimmed. -/
theorem C4_counterexample :
    (build_user_block (.dict [("avatar_thumb", .dict [("url_list", .list [.str " x "])])])).map
      UserBlock.url_list = some [" x "] ∧
    pyStrip " x " = "x" ∧ " x " ≠ "x" :=
  ⟨rfl, rfl, by decide⟩

/-- C4 amended: every element of the avatar URL list of a produced user
block is a string whose stripped form is non-empty (no element is a
non-string or blank), but elements from the url_list paths keep their
surrounding whitespace verbatim; only the single avatar/avatarUrl string
path trims. -/
theorem C4_avatar_elements_non_blank (user : PyVal) (ub : UserBlock)
    (h : build_user_block user = some ub) :
    ∀ s ∈ ub.url_list, pyStrip s ≠ "" := by
  have hinv := (build_user_block_inv h).2.2
  intro s hs he
  exact (hinv s hs) (by rw [he])

/-- C4 witness: the amended claim applied at the counterexample input. -/
theorem C4_avatar_elements_non_blank_witness : pyStrip " x " ≠ "" :=
  C4_avatar_elements_non_blank
    (.dict [("avatar_thumb", .dict [("url_list", .list [.str " x "])])])
    ⟨.str "", .str "", [" x "]⟩ rfl " x " (List.mem_singleton.mpr rfl)

/-- C5: each numeric field (create_time, digg_count, reply_comment_total)
of the produced record is the conservative coercion of its resolved
candidate value: a non-negative int keeps its value, a string composed
entirely of digits parses, everything else (negative ints, non-digit
strings, non-numeric shapes, absent) collapses to 0 — including the four
concrete examples of the claim. -/
theorem C5_numeric_coercion :
    (∀ (d : List (String × PyVal)) (u : String) (r : CanonicalComment),
      format_comment_record (.dict d) u = some r →
      r.create_time =
        specNumCoerce (resolveChain d ["create_time", "createTime", "timestamp"] (.int 0)) ∧
      r.digg_count =
        specNumCoerce (resolveChain d ["digg_count", "like_count", "likes"] (.int 0)) ∧
      r.reply_comment_total =
        specNumCoerce (resolveChain d ["reply_comment_total", "reply_count", "replies"] (.int 0))) ∧
    (format_comment_record (.dict [("create_time", .str "12345")]) "x").map
      CanonicalComment.create_time = some 12345 ∧
    (format_comment_record (.dict [("create_time", .str "12a45")]) "x").map
      CanonicalComment.create_time = some 0 ∧
    (format_comment_record (.dict [("create_time", .int (-5))]) "x").map
      CanonicalComment.create_time = some 0 ∧
    (format_comment_record (.dict []) "x").map
      CanonicalComment.create_time = some 0 := by
  refine ⟨?_, rfl, rfl, rfl, rfl⟩
  intro d u r h
  obtain ⟨ub, hub, hr⟩ := format_fields h
  subst hr
  exact ⟨pyNumCoerce_eq_spec _, pyNumCoerce_eq_spec _, pyNumCoerce_eq_spec _⟩

/-- C5 witness: the general coercion rule applied at the digit-string
example. -/
theorem C5_numeric_coercion_witness :
    (⟨false, "", "", "", 12345, 0, 0, .str "", ⟨.str "", .str "", []⟩, .str "x"⟩ :
      CanonicalComment).create_time = specNumCoerce (.str "12345") :=
  (C5_numeric_coercion.1 [("create_time", .str "12345")] "x" _ rfl).1

/-- C6: share URL derivation precedence.  If the raw mapping holds a nested
share_info mapping whose url entry is truthy, that value is used verbatim;
otherwise, if both the resolved aweme_id and comment id are non-empty, the
canonical deep-link is synthesized from them; otherwise the source URL is
used (which is also the empty-string fallback when the source URL is empty). -/
theorem C6_share_url_derivation (d : List (String × PyVal)) (u : String) (r : CanonicalComment)
    (h : format_comment_record (.dict d) u = some r) :
    (∀ t v, pyLookup d "share_info" = some (.dict t) → pyLookup t "url" = some v →
      pyTruthy v = true → r.share_info_url = v) ∧
    (pyTruthy (rawShareUrl d) = false → r.aweme_id ≠ "" → r.cid ≠ "" →
      r.share_info_url = .str ("https://m.tiktok.com/v/" ++ r.aweme_id ++
        ".html?share_comment_id=" ++ r.cid)) ∧
    (pyTruthy (rawShareUrl d) = false → (r.aweme_id = "" ∨ r.cid = "") →
      r.share_info_url = .str u) := by
  obtain ⟨ub, hub, hr⟩ := format_fields h
  subst hr
  refine ⟨?_, ?_, ?_⟩
  · intro t v h1 h2 hv
    dsimp only
    have hrs : rawShareUrl d = v := by
      rw [rawShareUrl]
      simp only [pyGet, h1, Option.getD_some]
      cases t with
      | nil => simp [pyLookup] at h2
      | cons p ts =>
        rw [pyOr_pos _ (by rfl)]
        show pyOr (pyGet (p :: ts) "url") (PyVal.str "") = v
        simp only [pyGet, h2, Option.getD_some]
        exact pyOr_pos _ hv
    rw [hrs, if_pos hv]
  · intro hfalse haw hcid
    dsimp only at haw hcid ⊢
    rw [if_neg (by simp [hfalse])]
    have hta : pyTruthy (resolveChain d ["aweme_id", "awemeId", "video_id", "videoId"]
        (.str "")) = true := by
      by_contra hn
      exact haw (by rw [if_neg hn])
    have htc : pyTruthy (resolveChain d ["cid", "comment_id", "id"] (.str "")) = true := by
      by_contra hn
      exact hcid (by rw [if_neg hn])
    congr 1
    rw [build_share_url_fallback, if_pos (by rw [hta, htc]; rfl)]
    rw [if_pos hta, if_pos htc]
  · intro hfalse hor
    dsimp only at hor ⊢
    rw [if_neg (by simp [hfalse])]
    congr 1
    rw [build_share_url_fallback]
    rcases hor with h | h
    · rw [if_neg (by rw [stringified_empty_falsy _ h]; simp)]
      exact strOr_empty u
    · rw [if_neg (by rw [stringified_empty_falsy _ h]; simp)]
      exact strOr_empty u

/-- C6 witness: the deep-link branch at the claim example: raw with
aweme_id "123" and cid "456" and no share_info yields
https://m.tiktok.com/v/123.html?share_comment_id=456. -/
theorem C6_share_url_derivation_witness :
    (⟨false, "123", "456", "", 0, 0, 0, .str "", ⟨.str "", .str "", []⟩,
      .str "https://m.tiktok.com/v/123.html?share_comment_id=456"⟩ :
      CanonicalComment).share_info_url =
    .str ("https://m.tiktok.com/v/" ++ "123" ++ ".html?share_comment_id=" ++ "456") :=
  (C6_share_url_derivation [("aweme_id", .str "123"), ("cid", .str "456")]
    "https://tiktok.com/x" _ rfl).2.1 rfl (by decide) (by decide)

/-- C7 counterexample: with an empty raw mapping and an empty source URL
the produced share_info url is the empty string, so the claim that the
share URL is a non-empty string for every raw mapping and every source URL
fails; with share_info url equal to the int 7 it is used verbatim and is
not a string at all. -/
theorem C7_counterexample :
    (format_comment_record (.dict []) "").map (fun r => r.share_info_url) = some (.str "") ∧
    ("" : String).length = 0 ∧
    (format_comment_record (.dict [("share_info", .dict [("url", .int 7)])]) "x").map
      (fun r => r.share_info_url) = some (.int 7) :=
  ⟨rfl, rfl, rfl⟩

/-- C7 amended: the produced share_info url is a truthy value (in
particular a non-empty string whenever it is a string) for every raw
mapping whenever the source URL is non-empty; it can be the empty string
only when the source URL is itself empty and both earlier branches
(verbatim share_info url, synthesized deep-link) are unavailable. -/
theorem C7_share_url_truthy (raw : PyVal) (u : String) (r : CanonicalComment)
    (h : format_comment_record raw u = some r) (hu : u ≠ "") :
    pyTruthy r.share_info_url = true := by
  rcases format_canon h with ⟨-, -, -, -, -, -, -, hsh⟩
  rcases hsh with hsh | ⟨-, -, hu0⟩
  · exact hsh
  · exact absurd hu0 hu

/-- C7 witness: the amended claim applied at a concrete record produced
from an empty mapping with a non-empty source URL. -/
theorem C7_share_url_truthy_witness :
    pyTruthy ((⟨false, "", "", "", 0, 0, 0, .str "", ⟨.str "", .str "", []⟩,
      .str "https://s"⟩ : CanonicalComment).share_info_url) = true :=
  C7_share_url_truthy (.dict []) "https://s" _ rfl (by decide)

/-- C8: is_comment_like (modelled from the spec, its definition being
absent from the truncated sources) accepts exactly the mappings in which
at least one of the keys text, comment, content, cid, comment_id, id holds
a truthy value, and the five concrete examples of the claim behave as
stated. -/
theorem C8_validity_filter :
    (∀ raw : PyVal, is_comment_like raw = true ↔
      ∃ d, raw = .dict d ∧
        ∃ k ∈ (["text", "comment", "content", "cid", "comment_id", "id"] : List String),
          pyTruthy (pyGet d k) = true) ∧
    is_comment_like (.dict [("text", .str "")]) = false ∧
    is_comment_like (.dict [("text", .str "hi")]) = true ∧
    is_comment_like (.dict [("id", .str "5")]) = true ∧
    is_comment_like (.dict []) = false ∧
    is_comment_like (.str "not a mapping") = false := by
  refine ⟨?_, rfl, rfl, rfl, rfl, rfl⟩
  intro raw
  match raw with
  | .dict d => simp [is_comment_like, List.any_eq_true]
  | .none | .bool _ | .int _ | .str _ | .list _ => simp [is_comment_like]

/-- C8 witness: the characterization applied at a concrete accepted
input. -/
theorem C8_validity_filter_witness : is_comment_like (.dict [("id", .str "5")]) = true :=
  (C8_validity_filter.1 (.dict [("id", .str "5")])).mpr
    ⟨[("id", .str "5")], rfl, "id", by decide, rfl⟩

/-- C9: idempotence.  Any record produced by format_comment_record,
re-rendered as a raw mapping under the canonical key names and re-fed with
the same source URL, normalizes to the identical record. -/
theorem C9_idempotent (raw : PyVal) (u : String) (r : CanonicalComment)
    (h : format_comment_record raw u = some r) :
    format_comment_record (recordToDict r) u = some r :=
  format_refeed (format_canon h)

/-- C9 witness: idempotence applied to the record produced from a concrete
raw comment. -/
theorem C9_idempotent_witness :
    format_comment_record (recordToDict ⟨false, "", "1", "", 0, 7, 0, .str "hi",
      ⟨.str "", .str "", []⟩, .str "https://s"⟩) "https://s" =
    some ⟨false, "", "1", "", 0, 7, 0, .str "hi", ⟨.str "", .str "", []⟩, .str "https://s"⟩ :=
  C9_idempotent (.dict [("cid", .str "1"), ("text", .str "hi"), ("digg_count", .str "7")])
    "https://s" _ rfl

/-- C10: the text field is passed through uncoerced: it is exactly the
first truthy value among the keys text, comment, content (the empty string
when none is truthy), with no stringification, so a truthy non-string
value appears unchanged and the output text is not guaranteed to be a
string. -/
theorem C10_text_passthrough (d : List (String × PyVal)) (u : String) (r : CanonicalComment)
    (h : format_comment_record (.dict d) u = some r) :
    r.text = firstTruthyOf d ["text", "comment", "content"] (.str "") := by
  obtain ⟨ub, hub, hr⟩ := format_fields h
  subst hr
  exact resolveChain_eq_firstTruthyOf d _ _

/-- C10 witness: a truthy non-string text value (the int 7) appears
unchanged in the produced record. -/
theorem C10_text_passthrough_witness :
    (⟨false, "", "", "", 0, 0, 0, .int 7, ⟨.str "", .str "", []⟩, .str ""⟩ :
      CanonicalComment).text = .int 7 ∧
    format_comment_record (.dict [("text", .int 7)]) "" =
      some ⟨false, "", "", "", 0, 0, 0, .int 7, ⟨.str "", .str "", []⟩, .str ""⟩ :=
  ⟨(C10_text_passthrough [("text", .int 7)] "" _ rfl).trans rfl, rfl⟩
